import Mathlib

/-!
Shallow embedding of `src/mcp-servers/langchain/mcp_server.py`: the stdio
JSON-RPC server `McpServer` (method registry, dispatch, read loop, handshake
and tool handlers), together with theorems settling the specification claims.

Modelling conventions:
  * Decoded JSON values are `Json`; JSON numbers are modelled as exact
    rationals.  IEEE double rounding, overflow and non-finite values are
    NOT modelled, so no theorem below relies on the value of a float
    computation beyond faults raised before any arithmetic happens.
  * Python exceptions are explicit `Fault` values; `Except Fault` models a
    computation that may raise.  The source's `_read_loop` contains no
    try/except, so a raised fault propagates out of the loop: the loop model
    returns a `LoopExit.crashed` outcome in that case.
  * Input is modelled after `json.loads` of one line: each read either
    returns no data, a line on which `json.loads` raises (carrying the
    decoder's message), or a decoded `Json` value.
  * The chat tool's external backend (`ChatOllama.agenerate`) is a parameter
    `ChatBackend`; every theorem quantifies over it or fixes a stub.
-/

/-- A decoded JSON value (the result of Python's `json.loads`).  An `obj`
represents a decoded `dict`, whose keys are unique, so field access is
`List.lookup`. -/
inductive Json where
  | null
  | bool (b : Bool)
  | num (q : Rat)
  | str (s : String)
  | arr (xs : List Json)
  | obj (fields : List (String × Json))

/-- Python equality between a decoded value and a string constant, as in
`name == "echo"` or `method == "shutdown"`: true exactly when the value is
that string. -/
def Json.isStr (j : Json) (s : String) : Bool :=
  match j with
  | .str t => t == s
  | _ => false

/-- Whether a decoded value is a JSON object (a Python `dict`). -/
def Json.isObj : Json → Bool
  | .obj _ => true
  | _ => false

/-- Whether a decoded object carries a given key (false on non-objects). -/
def Json.hasKey (j : Json) (k : String) : Bool :=
  match j with
  | .obj kvs => (kvs.lookup k).isSome
  | _ => false

/-- Python `str()` as interpolated into the source's f-string error messages
(`f"Unknown method {method}"`, `f"Unknown tool: {name}"`).  Faithful on the
scalar values the claims exercise (strings, `None`, booleans); Python's
float formatting and container `repr` are not modelled exactly, as no claim
interpolates such a value. -/
def pyStr : Json → String
  | .str s => s
  | .null => "None"
  | .bool true => "True"
  | .bool false => "False"
  | .num q => toString q
  | .arr _ => "<list>"
  | .obj _ => "<dict>"

/-- A Python exception.  `jsonRpcError` is the declared application error
class `JsonRpcError(code, message, data)` from the source; the others are
builtin exceptions that arise while decoding or running a handler. -/
inductive Fault where
  | jsonRpcError (code : Int) (message : String) (data : Option Json)
  | typeError (message : String)
  | attributeError (message : String)
  | jsonDecodeError (message : String)
  | valueError (message : String)

/-- Whether a fault is the declared application error class
(`JsonRpcError`); every other exception is an undeclared fault. -/
def Fault.isDeclared : Fault → Bool
  | .jsonRpcError _ _ _ => true
  | _ => false

/-- Observable dispatch events, used to state that a handler was (or was
not) entered: the event is recorded exactly when a handler's body starts
running (after `handler(**params)` argument binding has succeeded). -/
inductive Event where
  | handlerInvoked (method : String)

/-- `McpServer` mutable state: the `_shutdown_requested` flag set by the
`shutdown` handler (`__init__` sets it to `False`). -/
structure ServerState where
  shutdown_requested : Bool

/-- The state after `__init__`. -/
def initialState : ServerState := ⟨false⟩

/-- The keys of the method registry `self._methods`, in registration
order. -/
def registryKeys : List String :=
  ["list_tools", "invoke_tool", "ping", "shutdown"]

/-- The registered handlers, as a closed enumeration. -/
inductive MethodName where
  | list_tools
  | invoke_tool
  | ping
  | shutdown

/-- The registry lookup `self._methods.get(method)`: a string resolves
exactly when it equals one of the four keys registered in `__init__`
(lines 81–86); other hashable values (`None`, booleans, numbers) are
simply absent, yielding `None`; an unhashable `list` or `dict` key makes
`dict.get` raise `TypeError` (which, uncaught, crashes the loop). -/
def lookupMethod (j : Json) : Except Fault (Option MethodName) :=
  match j with
  | .str s =>
    if s == "list_tools" then .ok (some .list_tools)
    else if s == "invoke_tool" then .ok (some .invoke_tool)
    else if s == "ping" then .ok (some .ping)
    else if s == "shutdown" then .ok (some .shutdown)
    else .ok none
  | .arr _ => .error (.typeError "unhashable type: list")
  | .obj _ => .error (.typeError "unhashable type: dict")
  | _ => .ok none

/-- Role tags recognised by the chat tool when converting messages to
LangChain form. -/
inductive LCRole where
  | system
  | ai
  | human

/-- One LangChain message built by the chat tool: a recognised role and the
message's `content` value (`.null` both for an absent key and a JSON
null, matching Python's `msg.get("content")`). -/
structure LCMsg where
  role : LCRole
  content : Json

/-- The external chat backend (`self.chat_model.agenerate` followed by
`.generations[0][0].text`), abstracted as a function from the converted
messages to the reply text; it may itself raise. -/
def ChatBackend : Type :=
  List LCMsg → Except Fault String

/-- Python `d.get(key, default)` on a decoded value: a `dict` yields the
field or the default, any other value raises `AttributeError` (it has no
`get` method). -/
def pyGetD (j : Json) (k : String) (d : Json) : Except Fault Json :=
  match j with
  | .obj kvs => .ok ((kvs.lookup k).getD d)
  | _ => .error (.attributeError ("object has no attribute get: " ++ k))

/-- Python `float()` on a decoded value, as applied by the `add` tool.
Booleans convert to 0/1 as in Python; `None` and containers raise
`TypeError`.  Two approximations, disclosed: numbers are kept as exact
rationals, whereas Python rounds to the nearest IEEE double (and
`json.loads` can even yield NaN/Infinity) — no theorem relies on the
numeric value of a conversion or sum; and numeric-string parsing is not
modelled (no claim passes a string to `add`), a non-numeric string raising
`ValueError` either way. -/
def pyFloat : Json → Except Fault Rat
  | .num q => .ok q
  | .bool b => .ok (if b then 1 else 0)
  | .str s => .error (.valueError ("could not convert string to float: " ++ s))
  | .null => .error (.typeError "float() argument must not be None")
  | .arr _ => .error (.typeError "float() argument must not be a list")
  | .obj _ => .error (.typeError "float() argument must not be a dict")

/-- The `**params` expansion in `await handler(**params)`: the params value
must be a mapping, else the call raises `TypeError` before any handler code
runs. -/
def asKwargs : Json → Except Fault (List (String × Json))
  | .obj kvs => .ok kvs
  | _ => .error (.typeError "argument after ** must be a mapping")

/-- Keyword-argument binding for `invoke_tool(self, name, arguments)`: the
call raises `TypeError` on an unexpected keyword or a missing required one;
only when both required names bind does the body run. -/
def bindInvokeTool (kwargs : List (String × Json)) : Except Fault (Json × Json) :=
  if kwargs.any (fun kv => !(kv.1 == "name") && !(kv.1 == "arguments")) then
    .error (.typeError "invoke_tool got an unexpected keyword argument")
  else
    match kwargs.lookup "name", kwargs.lookup "arguments" with
    | some n, some a => .ok (n, a)
    | _, _ => .error (.typeError "invoke_tool missing a required argument")

/-- The static catalog returned by `list_tools`. -/
def toolsCatalog : Json :=
  .obj [("tools", .arr [
    .obj [("name", .str "echo"),
          ("description", .str "Echo back the input message"),
          ("parameters", .obj [
            ("type", .str "object"),
            ("properties", .obj [
              ("message", .obj [("type", .str "string"),
                                ("description", .str "Message to echo back")])]),
            ("required", .arr [.str "message"])])],
    .obj [("name", .str "add"),
          ("description", .str "Add two numbers"),
          ("parameters", .obj [
            ("type", .str "object"),
            ("properties", .obj [
              ("a", .obj [("type", .str "number"),
                          ("description", .str "First number")]),
              ("b", .obj [("type", .str "number"),
                          ("description", .str "Second number")])]),
            ("required", .arr [.str "a", .str "b"])])],
    .obj [("name", .str "chat"),
          ("description", .str "Chat with LangChain model"),
          ("parameters", .obj [
            ("type", .str "object"),
            ("properties", .obj [
              ("messages", .obj [
                ("type", .str "array"),
                ("items", .obj [
                  ("type", .str "object"),
                  ("properties", .obj [
                    ("role", .obj [("type", .str "string")]),
                    ("content", .obj [("type", .str "string")])])])])]),
            ("required", .arr [.str "messages"])])]])]

/-- The body of the chat tool's message-conversion loop, element by
element: a non-dict element raises `AttributeError` at `msg.get`;
recognised roles are kept in order, any other role is silently dropped. -/
def lcConvert : List Json → Except Fault (List LCMsg)
  | [] => .ok []
  | m :: rest =>
    match m with
    | .obj kvs =>
      let role := (kvs.lookup "role").getD .null
      let content := (kvs.lookup "content").getD .null
      (lcConvert rest).map (fun tail =>
        if role.isStr "system" then ⟨.system, content⟩ :: tail
        else if role.isStr "assistant" then ⟨.ai, content⟩ :: tail
        else if role.isStr "user" then ⟨.human, content⟩ :: tail
        else tail)
    | _ => .error (.attributeError "message object has no attribute get")

/-- The chat tool's message iteration `for msg in messages`: a list yields
its elements; a dict yields its keys (Python strings); a string yields its
one-character substrings; `None`, booleans and numbers are not iterable
and raise `TypeError`.  Every yielded element then goes through
`lcConvert`, whose `msg.get` raises `AttributeError` on a non-dict. -/
def toLcMessages : Json → Except Fault (List LCMsg)
  | .arr msgs => lcConvert msgs
  | .obj kvs => lcConvert (kvs.map (fun kv => .str kv.1))
  | .str s => lcConvert (s.toList.map (fun c => .str (String.singleton c)))
  | _ => .error (.typeError "messages object is not iterable")

/-- `McpServer.invoke_tool` (source lines 197–222): dispatch on the tool
name; `echo` and `add` read their arguments with `.get` defaults, `chat`
converts messages and calls the backend, and any other name raises the
declared `JsonRpcError(-32001, f"Unknown tool: {name}")`. -/
def invoke_tool (chat : ChatBackend) (name arguments : Json) :
    Except Fault Json :=
  if name.isStr "echo" then do
    let m ← pyGetD arguments "message" (.str "")
    return .obj [("echo", m)]
  else if name.isStr "add" then do
    let av ← pyGetD arguments "a" (.num 0)
    let a ← pyFloat av
    let bv ← pyGetD arguments "b" (.num 0)
    let b ← pyFloat bv
    return .obj [("sum", .num (a + b))]
  else if name.isStr "chat" then do
    let msgs ← pyGetD arguments "messages" (.arr [])
    let lc ← toLcMessages msgs
    let text ← chat lc
    return .obj [("response", .str text)]
  else
    .error (.jsonRpcError (-32001) ("Unknown tool: " ++ pyStr name) none)

/-- `await handler(**params)` for a resolved handler: bind the params
mapping as keyword arguments, then run the handler body.  Every handler is
a bound method whose first parameter `self` is already bound, so a params
key `"self"` raises `TypeError` (got multiple values for the argument) at
the call, for every handler.  `list_tools`, `ping` and `shutdown` take
`**_` and accept any other keyword; `shutdown` sets `_shutdown_requested`.
The returned event list records which handler bodies actually ran. -/
def callHandler (chat : ChatBackend) (st : ServerState) (m : MethodName)
    (params : Json) : List Event × Except Fault (Json × ServerState) :=
  match asKwargs params with
  | .error f => ([], .error f)
  | .ok kwargs =>
    match kwargs.lookup "self" with
    | some _ => ([], .error (.typeError "got multiple values for argument self"))
    | none =>
    match m with
    | .list_tools => ([.handlerInvoked "list_tools"], .ok (toolsCatalog, st))
    | .ping => ([.handlerInvoked "ping"], .ok (.str "pong", st))
    | .shutdown => ([.handlerInvoked "shutdown"], .ok (.str "shutting down", ⟨true⟩))
    | .invoke_tool =>
      match bindInvokeTool kwargs with
      | .error f => ([], .error f)
      | .ok (n, a) =>
        ([.handlerInvoked "invoke_tool"],
         (invoke_tool chat n a).map (fun r => (r, st)))

/-- The field reads of `_read_loop` lines 176–178: `req.get("id")`,
`req.get("method")`, `req.get("params", {})`.  On a non-dict the first
`.get` raises `AttributeError`.  An absent `id`/`method` is Python `None`,
modelled as `.null` (both serialise to JSON null). -/
def reqFields (req : Json) : Except Fault (Json × Json × Json) :=
  match req with
  | .obj kvs => .ok ((kvs.lookup "id").getD .null,
                     (kvs.lookup "method").getD .null,
                     (kvs.lookup "params").getD (.obj []))
  | _ => .error (.attributeError "request object has no attribute get")

/-- The result response object built at line 189:
`{"jsonrpc":"2.0","result":result,"id":mid}`. -/
def resultResp (result mid : Json) : Json :=
  .obj [("jsonrpc", .str "2.0"), ("result", result), ("id", mid)]

/-- The error response object built at lines 182–186:
`{"jsonrpc":"2.0","error":{"code":c,"message":m},"id":mid}`. -/
def errorResp (code : Int) (message : String) (mid : Json) : Json :=
  .obj [("jsonrpc", .str "2.0"),
        ("error", .obj [("code", .num (code : Int)), ("message", .str message)]),
        ("id", mid)]

/-- One loop body on a successfully decoded line (lines 176–195 before the
write): read the request fields, resolve the method, either build the
`-32601` error response or call the handler and build the result response.
The boolean is the later `method == "shutdown"` break test; a raised fault
is returned as `.error` (the loop has no handler for it). -/
def handleDecoded (chat : ChatBackend) (st : ServerState) (req : Json) :
    List Event × Except Fault (Json × ServerState × Bool) :=
  match reqFields req with
  | .error f => ([], .error f)
  | .ok (mid, method, params) =>
    match lookupMethod method with
    | .error f => ([], .error f)
    | .ok none =>
      ([], .ok (errorResp (-32601) ("Unknown method " ++ pyStr method) mid,
                st, method.isStr "shutdown"))
    | .ok (some m) =>
      match callHandler chat st m params with
      | (evs, .error f) => (evs, .error f)
      | (evs, .ok (result, st')) =>
        (evs, .ok (resultResp result mid, st', method.isStr "shutdown"))

/-- One read from stdin, seen after `json.loads`: no data (readline
returned empty, the loop sleeps and retries), a line on which `json.loads`
raises (with the decoder's message), or a decoded value. -/
inductive Inp where
  | emptyRead
  | line (decoded : Except String Json)

/-- How a run of the read loop ended: the modelled input list was
exhausted with the loop still running, the `break` after a shutdown
response, or an uncaught fault propagating out of the loop. -/
inductive LoopExit where
  | inputExhausted
  | shutdownBreak
  | crashed (f : Fault)

/-- Observable outcome of running the read loop: the response frames
written to stdout in order, the handler-invocation events, how the loop
ended, and the final server state. -/
structure LoopResult where
  outputs : List Json
  events : List Event
  exit : LoopExit
  final : ServerState

/-- `McpServer._read_loop` (lines 168–195) over a list of reads: an empty
read sleeps and continues; a line that fails to decode crashes the loop
(`json.loads` raises, uncaught); a decoded line is dispatched — a fault
crashes the loop with no response written for that request, otherwise the
response is written and the loop breaks iff the method was `"shutdown"`. -/
def readLoop (chat : ChatBackend) : ServerState → List Inp → LoopResult
  | st, [] => ⟨[], [], .inputExhausted, st⟩
  | st, .emptyRead :: rest => readLoop chat st rest
  | st, .line (.error msg) :: _ => ⟨[], [], .crashed (.jsonDecodeError msg), st⟩
  | st, .line (.ok req) :: rest =>
    match handleDecoded chat st req with
    | (evs, .error f) => ⟨[], evs, .crashed f, st⟩
    | (evs, .ok (resp, st', brk)) =>
      if brk then ⟨[resp], evs, .shutdownBreak, st'⟩
      else
        let r := readLoop chat st' rest
        ⟨resp :: r.outputs, evs ++ r.events, r.exit, r.final⟩

/-- The handshake notification written by `send_handshake` (lines
147–161). -/
def handshakeMsg : Json :=
  .obj [("jsonrpc", .str "2.0"),
        ("method", .str "mcp/server_ready"),
        ("id", .num 0),
        ("params", .obj [
          ("name", .str "langchain-mcp"),
          ("version", .str "0.1.0"),
          ("protocols", .arr [.str "mcp/1.0"]),
          ("capabilities", .arr [.str "list_tools", .str "invoke_tool",
                                 .str "ping", .str "shutdown"])])]

/-- `McpServer.run` (lines 163–166): write the handshake once, then run the
read loop from the freshly initialised state. -/
def run (chat : ChatBackend) (inps : List Inp) : LoopResult :=
  let r := readLoop chat initialState inps
  ⟨handshakeMsg :: r.outputs, r.events, r.exit, r.final⟩

/-- The `id` field of a response object, for stating id preservation. -/
def respId : Json → Option Json
  | .obj kvs => kvs.lookup "id"
  | _ => none

/-- Whether a decoded request's `method` field is the shutdown method, for
stating what can trigger the loop's `break`. -/
def isShutdownReq (req : Json) : Bool :=
  match req with
  | .obj kvs => ((kvs.lookup "method").getD .null).isStr "shutdown"
  | _ => false

/-- The `params.capabilities` field of a notification object, for stating
what capability list the handshake advertises. -/
def msgCapabilities (j : Json) : Option Json :=
  match j with
  | .obj kvs =>
    match kvs.lookup "params" with
    | some (.obj ps) => ps.lookup "capabilities"
    | _ => none
  | _ => none

/-- A concrete chat backend stub used to instantiate theorems at closed
inputs; every quantified theorem holds for all backends. -/
def chatStub : ChatBackend := fun _ => .ok "stub reply"

/-- A concrete well-formed `ping` request with numeric id 4. -/
def reqPing : Json :=
  .obj [("jsonrpc", .str "2.0"), ("method", .str "ping"), ("id", .num 4),
        ("params", .obj [])]

/-- A concrete `shutdown` request with numeric id 5 and no params key. -/
def reqShut : Json :=
  .obj [("method", .str "shutdown"), ("id", .num 5)]

/-- A concrete `shutdown` request whose params mapping contains the key
`self`, which collides with the bound method's own first argument when the
loop calls `handler(**params)`. -/
def reqShutSelf : Json :=
  .obj [("id", .num 6), ("method", .str "shutdown"),
        ("params", .obj [("self", .num 1)])]

/-- A concrete `invoke_tool`/`add` request whose argument `a` is JSON null,
so that the handler body raises an undeclared `TypeError` at `float(None)`. -/
def reqAddNull : Json :=
  .obj [("id", .num 7), ("method", .str "invoke_tool"),
        ("params", .obj [("name", .str "add"),
                         ("arguments", .obj [("a", Json.null)])])]

/-- A concrete `invoke_tool` request naming the unregistered tool `bogus`,
so that the handler raises the declared `JsonRpcError(-32001, ...)`. -/
def reqBogusTool : Json :=
  .obj [("id", .num 3), ("method", .str "invoke_tool"),
        ("params", .obj [("name", .str "bogus"),
                         ("arguments", .obj [])])]

/-- A concrete `invoke_tool` request whose params lack the required
`arguments` key, so that keyword binding raises `TypeError`. -/
def reqEchoMissingArgs : Json :=
  .obj [("id", .num 2), ("method", .str "invoke_tool"),
        ("params", .obj [("name", .str "echo")])]

/-! ## Helper lemmas -/

/-- A dispatched response that carries the break flag comes from a request
whose `method` field is the shutdown method: the break test is computed
from that field. -/
theorem handleDecoded_break_isShutdown (chat : ChatBackend) (st : ServerState)
    (req : Json) (evs : List Event) (resp : Json) (st' : ServerState)
    (h : handleDecoded chat st req = (evs, .ok (resp, st', true))) :
    isShutdownReq req = true := by
  cases req with
  | obj kvs =>
    simp only [handleDecoded, reqFields] at h
    split at h
    · simp at h
    · simp only [Prod.mk.injEq, Except.ok.injEq] at h
      simp [isShutdownReq, h.2.2.2]
    · split at h
      · simp at h
      · simp only [Prod.mk.injEq, Except.ok.injEq] at h
        simp [isShutdownReq, h.2.2.2]
  | null => simp [handleDecoded, reqFields] at h
  | bool b => simp [handleDecoded, reqFields] at h
  | num q => simp [handleDecoded, reqFields] at h
  | str s => simp [handleDecoded, reqFields] at h
  | arr xs => simp [handleDecoded, reqFields] at h

/-- Every response the dispatcher produces is a result or error response
object, never the handshake notification. -/
theorem handleDecoded_resp_ne_handshake (chat : ChatBackend) (st : ServerState)
    (req : Json) (evs : List Event) (resp : Json) (st' : ServerState) (brk : Bool)
    (h : handleDecoded chat st req = (evs, .ok (resp, st', brk))) :
    resp ≠ handshakeMsg := by
  cases req with
  | obj kvs =>
    simp only [handleDecoded, reqFields] at h
    split at h
    · simp at h
    · simp only [Prod.mk.injEq, Except.ok.injEq] at h
      rw [← h.2.1]
      simp [errorResp, handshakeMsg]
    · split at h
      · simp at h
      · simp only [Prod.mk.injEq, Except.ok.injEq] at h
        rw [← h.2.1]
        simp [resultResp, handshakeMsg]
  | null => simp [handleDecoded, reqFields] at h
  | bool b => simp [handleDecoded, reqFields] at h
  | num q => simp [handleDecoded, reqFields] at h
  | str s => simp [handleDecoded, reqFields] at h
  | arr xs => simp [handleDecoded, reqFields] at h

/-- The handshake notification never appears among the read loop's response
frames. -/
theorem handshake_not_in_loop_outputs (chat : ChatBackend) (st : ServerState)
    (inps : List Inp) : handshakeMsg ∉ (readLoop chat st inps).outputs := by
  induction inps generalizing st with
  | nil => simp [readLoop]
  | cons i rest ih =>
    cases i with
    | emptyRead => exact ih st
    | line d =>
      cases d with
      | error msg => simp [readLoop]
      | ok req =>
        simp only [readLoop]
        rcases hd : handleDecoded chat st req with ⟨evs, res⟩
        cases res with
        | error f => simp
        | ok t =>
          rcases t with ⟨resp, st', brk⟩
          have hne := handleDecoded_resp_ne_handshake chat st req evs resp st' brk hd
          cases brk with
          | true =>
            intro hmem
            simp at hmem
            exact hne hmem.symm
          | false =>
            intro hmem
            simp at hmem
            rcases hmem with e | e
            · exact hne e.symm
            · exact ih st' e

/-! ## Claim theorems -/

/-- C7: for every string X (the empty string and strings with
JSON-significant characters included — the quantification is over all Lean
strings), `invoke_tool("echo", {"message": X})` returns `{"echo": X}`, for
every chat backend. -/
theorem echo_roundtrip (chat : ChatBackend) (X : String) :
    invoke_tool chat (.str "echo") (.obj [("message", .str X)])
      = .ok (.obj [("echo", .str X)]) := rfl

/-- C5: a request whose `method` field is a string not in the method
registry is answered by an Error response with code -32601 whose message
names the unresolved method and whose id is the request's id; no handler is
invoked (empty event list) and the loop continues (ok outcome, break flag
false). -/
theorem unknown_method_error (chat : ChatBackend) (st : ServerState)
    (kvs : List (String × Json)) (m : String)
    (hm : kvs.lookup "method" = some (.str m))
    (hnone : lookupMethod (.str m) = .ok none) :
    handleDecoded chat st (.obj kvs)
      = ([], .ok (errorResp (-32601) ("Unknown method " ++ m)
                    ((kvs.lookup "id").getD .null), st, false)) := by
  have hshut : m ≠ "shutdown" := by
    intro e
    subst e
    simp [lookupMethod] at hnone
  simp [handleDecoded, reqFields, hm, hnone, pyStr, Json.isStr, hshut]

/-- C5 witness: the unregistered method `frobnicate` with id 9. -/
theorem unknown_method_error_witness :
    handleDecoded chatStub initialState
        (.obj [("id", .num 9), ("method", .str "frobnicate")])
      = ([], .ok (errorResp (-32601) ("Unknown method " ++ "frobnicate")
                    (.num 9), initialState, false)) :=
  unknown_method_error chatStub initialState
    [("id", .num 9), ("method", .str "frobnicate")] "frobnicate" rfl rfl

/-- C1 counterexample: for the concrete request `invoke_tool("add",
{"a": null})` (whose handler raises an undeclared `TypeError` at
`float(None)`), followed by a well-formed ping, the loop writes NO output
at all — in particular no -32603 Error response — and crashes instead of
continuing to the next frame. -/
theorem undeclaredFault_cex :
    (readLoop chatStub initialState
        [.line (.ok reqAddNull), .line (.ok reqPing)]).outputs = []
    ∧ (readLoop chatStub initialState
        [.line (.ok reqAddNull), .line (.ok reqPing)]).exit
      = .crashed (.typeError "float() argument must not be None") :=
  ⟨rfl, rfl⟩

/-- C1 amended: when a dispatched request's handler raises an undeclared
fault, no response is produced for it (in particular no -32603 Error
response): the fault propagates uncaught out of the read loop, which
terminates at once without processing any later frame. -/
theorem undeclaredFault_propagates (chat : ChatBackend) (st : ServerState)
    (req : Json) (rest : List Inp) (evs : List Event) (f : Fault)
    (hf : handleDecoded chat st req = (evs, .error f))
    (hundecl : f.isDeclared = false) :
    readLoop chat st (.line (.ok req) :: rest) = ⟨[], evs, .crashed f, st⟩ := by
  simp only [readLoop, hf]

/-- C1 amended witness: the `invoke_tool("add", {"a": null})` request. -/
theorem undeclaredFault_propagates_witness :
    readLoop chatStub initialState [.line (.ok reqAddNull)]
      = ⟨[], [.handlerInvoked "invoke_tool"],
          .crashed (.typeError "float() argument must not be None"),
          initialState⟩ :=
  undeclaredFault_propagates chatStub initialState reqAddNull []
    [.handlerInvoked "invoke_tool"]
    (.typeError "float() argument must not be None") rfl rfl

/-- C2 counterexample: a line on which `json.loads` raises, followed by a
well-formed ping, produces no output at all — no -32700 Error response —
and the loop crashes instead of recovering to await the next line. -/
theorem malformedLine_cex :
    (readLoop chatStub initialState
        [.line (.error "Expecting value"), .line (.ok reqPing)]).outputs = []
    ∧ (readLoop chatStub initialState
        [.line (.error "Expecting value"), .line (.ok reqPing)]).exit
      = .crashed (.jsonDecodeError "Expecting value") :=
  ⟨rfl, rfl⟩

/-- C2 amended: an input line that is not valid JSON crashes the session
loop with the uncaught decode fault, and a line that is valid JSON but not
an object crashes it with the uncaught `AttributeError` from `req.get`; in
both cases no response (in particular no -32700 Error response) is emitted
and no later line is read. -/
theorem malformedLine_crashes (chat : ChatBackend) (st : ServerState)
    (msg : String) (j : Json) (rest rest' : List Inp)
    (hj : j.isObj = false) :
    readLoop chat st (.line (.error msg) :: rest)
      = ⟨[], [], .crashed (.jsonDecodeError msg), st⟩
    ∧ readLoop chat st (.line (.ok j) :: rest')
      = ⟨[], [], .crashed (.attributeError "request object has no attribute get"),
          st⟩ := by
  constructor
  · rfl
  · cases j with
    | obj kvs => simp [Json.isObj] at hj
    | null => rfl
    | bool b => rfl
    | num q => rfl
    | str s => rfl
    | arr xs => rfl

/-- C2 amended witness: an undecodable line, and the decoded non-object
line `5`. -/
theorem malformedLine_crashes_witness :
    readLoop chatStub initialState [.line (.error "Expecting value")]
      = ⟨[], [], .crashed (.jsonDecodeError "Expecting value"), initialState⟩
    ∧ readLoop chatStub initialState [.line (.ok (.num 5))]
      = ⟨[], [], .crashed (.attributeError "request object has no attribute get"),
          initialState⟩ :=
  malformedLine_crashes chatStub initialState "Expecting value" (.num 5) [] [] rfl

/-- C3 counterexample: for the concrete request `invoke_tool` naming the
unknown tool `bogus`, the loop writes NO Error response carrying the
declared triple (it writes nothing): the declared `JsonRpcError(-32001,
"Unknown tool: bogus")` propagates uncaught and the session crashes. -/
theorem unknownTool_cex :
    (readLoop chatStub initialState [.line (.ok reqBogusTool)]).outputs = []
    ∧ (readLoop chatStub initialState [.line (.ok reqBogusTool)]).exit
      = .crashed (.jsonRpcError (-32001) ("Unknown tool: " ++ "bogus") none) :=
  ⟨rfl, rfl⟩

/-- C3 amended: invoking `invoke_tool` with a tool name other than echo,
add or chat makes the handler fail with exactly the declared triple
(-32001, "Unknown tool: <name>", no data), for every backend and every
arguments value — so no other tool is even partially executed — but the
server does NOT write an Error response carrying the triple: the fault
propagates uncaught out of the read loop and the session terminates with
no output for that request. -/
theorem unknownTool_declared_error_uncaught (chat : ChatBackend)
    (st : ServerState) (n : String) (args mid : Json) (rest : List Inp)
    (h1 : n ≠ "echo") (h2 : n ≠ "add") (h3 : n ≠ "chat") :
    invoke_tool chat (.str n) args
      = .error (.jsonRpcError (-32001) ("Unknown tool: " ++ n) none)
    ∧ readLoop chat st
        (.line (.ok (.obj [("id", mid), ("method", .str "invoke_tool"),
          ("params", .obj [("name", .str n), ("arguments", args)])])) :: rest)
      = ⟨[], [.handlerInvoked "invoke_tool"],
          .crashed (.jsonRpcError (-32001) ("Unknown tool: " ++ n) none), st⟩ := by
  have hiv : invoke_tool chat (.str n) args
      = .error (.jsonRpcError (-32001) ("Unknown tool: " ++ n) none) := by
    simp [invoke_tool, Json.isStr, h1, h2, h3, pyStr]
  refine ⟨hiv, ?_⟩
  simp [readLoop, handleDecoded, reqFields, lookupMethod, callHandler,
        asKwargs, bindInvokeTool, List.lookup, hiv, Except.map]

/-- C3 amended witness: the unknown tool name `frobnicate` with empty
arguments and id 11. -/
theorem unknownTool_declared_error_uncaught_witness :
    invoke_tool chatStub (.str "frobnicate") (.obj [])
      = .error (.jsonRpcError (-32001) ("Unknown tool: " ++ "frobnicate") none)
    ∧ readLoop chatStub initialState
        [.line (.ok (.obj [("id", .num 11), ("method", .str "invoke_tool"),
          ("params", .obj [("name", .str "frobnicate"),
                           ("arguments", .obj [])])]))]
      = ⟨[], [.handlerInvoked "invoke_tool"],
          .crashed (.jsonRpcError (-32001) ("Unknown tool: " ++ "frobnicate") none),
          initialState⟩ :=
  unknownTool_declared_error_uncaught chatStub initialState "frobnicate"
    (.obj []) (.num 11) [] (by decide) (by decide) (by decide)

/-- C4: whenever the dispatcher produces a response for a decoded request —
a Result response or the -32601 Error response — the response's `id` field
is exactly the request's `id` value (the same `Json` value, so numbers stay
numbers, strings stay strings and null stays null). -/
theorem dispatch_preserves_id (chat : ChatBackend) (st : ServerState)
    (kvs : List (String × Json)) (evs : List Event) (resp : Json)
    (st' : ServerState) (brk : Bool)
    (h : handleDecoded chat st (.obj kvs) = (evs, .ok (resp, st', brk))) :
    respId resp = some ((kvs.lookup "id").getD .null) := by
  simp only [handleDecoded, reqFields] at h
  split at h
  · simp at h
  · simp only [Prod.mk.injEq, Except.ok.injEq] at h
    rw [← h.2.1]
    rfl
  · split at h
    · simp at h
    · simp only [Prod.mk.injEq, Except.ok.injEq] at h
      rw [← h.2.1]
      rfl

/-- C4 witness: the ping request with numeric id 4 is answered with id 4. -/
theorem dispatch_preserves_id_witness :
    respId (resultResp (.str "pong") (.num 4)) = some (.num 4) :=
  dispatch_preserves_id chatStub initialState
    [("jsonrpc", .str "2.0"), ("method", .str "ping"), ("id", .num 4),
     ("params", .obj [])]
    [.handlerInvoked "ping"] (resultResp (.str "pong") (.num 4))
    initialState false rfl

/-- C6 counterexample: a malformed line terminates the session loop with no
shutdown request ever dispatched (the following shutdown frame is never
read), so shutdown is NOT the sole trigger for leaving the loop; and the
shutdown request whose params mapping carries the key `self` is not
answered at all — `handler(**params)` raises `TypeError` (got multiple
values for the bound method's `self`) and the loop crashes. -/
theorem loop_exit_without_shutdown_cex :
    readLoop chatStub initialState [.line (.error "bad"), .line (.ok reqShut)]
      = ⟨[], [], .crashed (.jsonDecodeError "bad"), initialState⟩
    ∧ readLoop chatStub initialState [.line (.ok reqShutSelf)]
      = ⟨[], [], .crashed (.typeError "got multiple values for argument self"),
          initialState⟩ :=
  ⟨rfl, rfl⟩

/-- C6 amended: every shutdown request whose params value (absent or a
mapping) does not carry the key `self` is answered with the confirmation
result response and the loop then breaks at once — no later input is
consumed, whatever it is — and shutdown is the sole trigger of the loop's
normal (break) exit; an uncaught fault (a malformed line, or a params
mapping carrying `self`), however, can also terminate the loop. -/
theorem shutdown_sole_normal_exit :
    (∀ (chat : ChatBackend) (st : ServerState) (kvs : List (String × Json))
       (rest : List Inp),
       kvs.lookup "method" = some (.str "shutdown") →
       ((kvs.lookup "params").getD (.obj [])).isObj = true →
       ((kvs.lookup "params").getD (.obj [])).hasKey "self" = false →
       readLoop chat st (.line (.ok (.obj kvs)) :: rest)
         = ⟨[resultResp (.str "shutting down") ((kvs.lookup "id").getD .null)],
            [.handlerInvoked "shutdown"], .shutdownBreak, ⟨true⟩⟩)
    ∧ (∀ (chat : ChatBackend) (st : ServerState) (inps : List Inp),
       (readLoop chat st inps).exit = .shutdownBreak →
       ∃ req, Inp.line (.ok req) ∈ inps ∧ isShutdownReq req = true) := by
  constructor
  · intro chat st kvs rest hm hp hself
    rcases hpo : (kvs.lookup "params").getD (.obj []) with _ | b | q | s | xs | pkvs
    · rw [hpo] at hp; simp [Json.isObj] at hp
    · rw [hpo] at hp; simp [Json.isObj] at hp
    · rw [hpo] at hp; simp [Json.isObj] at hp
    · rw [hpo] at hp; simp [Json.isObj] at hp
    · rw [hpo] at hp; simp [Json.isObj] at hp
    · have hsel : pkvs.lookup "self" = none := by
        rw [hpo] at hself
        cases hsel0 : pkvs.lookup "self" with
        | none => rfl
        | some v => simp [Json.hasKey, hsel0] at hself
      simp [readLoop, handleDecoded, reqFields, hm, hpo, lookupMethod,
            callHandler, asKwargs, Json.isStr, hsel]
  · intro chat st inps
    induction inps generalizing st with
    | nil => intro h; simp [readLoop] at h
    | cons i rest ih =>
      cases i with
      | emptyRead =>
        intro h
        rcases ih st h with ⟨req, hmem, hs⟩
        exact ⟨req, List.mem_cons_of_mem _ hmem, hs⟩
      | line d =>
        cases d with
        | error msg => intro h; simp [readLoop] at h
        | ok req =>
          simp only [readLoop]
          rcases hd : handleDecoded chat st req with ⟨evs, res⟩
          cases res with
          | error f => intro h; simp at h
          | ok t =>
            rcases t with ⟨resp, st', brk⟩
            cases brk with
            | true =>
              intro _
              exact ⟨req, List.mem_cons_self _ _,
                     handleDecoded_break_isShutdown chat st req evs resp st' hd⟩
            | false =>
              intro h
              simp at h
              rcases ih st' h with ⟨r, hmem, hs⟩
              exact ⟨r, List.mem_cons_of_mem _ hmem, hs⟩

/-- C6 amended witness: the concrete shutdown request with id 5, followed
by a ping that is never read; and the break exit on that input implies a
shutdown request was among the inputs. -/
theorem shutdown_sole_normal_exit_witness :
    readLoop chatStub initialState [.line (.ok reqShut), .line (.ok reqPing)]
      = ⟨[resultResp (.str "shutting down") (.num 5)],
         [.handlerInvoked "shutdown"], .shutdownBreak, ⟨true⟩⟩
    ∧ ∃ req, Inp.line (.ok req) ∈ [Inp.line (.ok reqShut)]
        ∧ isShutdownReq req = true :=
  ⟨shutdown_sole_normal_exit.1 chatStub initialState
     [("method", .str "shutdown"), ("id", .num 5)] [.line (.ok reqPing)]
     rfl rfl rfl,
   shutdown_sole_normal_exit.2 chatStub initialState [.line (.ok reqShut)] rfl⟩

/-- C9: the first frame `run` writes is the handshake notification, the
handshake appears in no later output frame (it is written exactly once,
before any request is answered), its advertised capability list is exactly
the registry's key list, and a method string resolves in the registry
exactly when it is in that list. -/
theorem handshake_once_first (chat : ChatBackend) (inps : List Inp) :
    (run chat inps).outputs.head? = some handshakeMsg
    ∧ handshakeMsg ∉ (run chat inps).outputs.drop 1
    ∧ msgCapabilities handshakeMsg = some (.arr (registryKeys.map .str))
    ∧ ∀ s : String, (∃ m, lookupMethod (.str s) = .ok (some m)) ↔ s ∈ registryKeys := by
  refine ⟨rfl, ?_, rfl, ?_⟩
  · show handshakeMsg ∉ (readLoop chat initialState inps).outputs
    exact handshake_not_in_loop_outputs chat initialState inps
  · intro s
    simp only [lookupMethod, registryKeys, List.mem_cons, List.not_mem_nil, or_false]
    split_ifs with h1 h2 h3 h4 <;> simp_all

/-- C10: an `invoke_tool` request whose params mapping lacks `name` or
`arguments`, or contains any extra key, makes the keyword binding of
`invoke_tool(self, name, arguments)` raise an undeclared `TypeError`: no
handler body runs (no event) and no response at all is written for the
request (the fault kills the loop before the write). -/
theorem invoke_tool_bad_params_fault (chat : ChatBackend) (st : ServerState)
    (kvs pkvs : List (String × Json)) (rest : List Inp)
    (hm : kvs.lookup "method" = some (.str "invoke_tool"))
    (hp : kvs.lookup "params" = some (.obj pkvs))
    (hbad : pkvs.lookup "name" = none ∨ pkvs.lookup "arguments" = none
            ∨ ∃ p ∈ pkvs, p.1 ≠ "name" ∧ p.1 ≠ "arguments") :
    ∃ msg, readLoop chat st (.line (.ok (.obj kvs)) :: rest)
      = ⟨[], [], .crashed (.typeError msg), st⟩ := by
  have hcall : ∃ msg, callHandler chat st .invoke_tool (.obj pkvs)
      = ([], .error (.typeError msg)) := by
    cases hs : pkvs.lookup "self" with
    | some v =>
      exact ⟨"got multiple values for argument self",
             by simp [callHandler, asKwargs, hs]⟩
    | none =>
      have hbind : ∃ msg, bindInvokeTool pkvs = .error (.typeError msg) := by
        by_cases hany : pkvs.any (fun kv => !(kv.1 == "name") && !(kv.1 == "arguments")) = true
        · exact ⟨"invoke_tool got an unexpected keyword argument",
                 by simp [bindInvokeTool, hany]⟩
        · rcases hbad with hn | ha | ⟨p, hpmem, hp1, hp2⟩
          · refine ⟨"invoke_tool missing a required argument", ?_⟩
            simp only [bindInvokeTool, hany, if_false, Bool.false_eq_true, ite_false, hn]
          · refine ⟨"invoke_tool missing a required argument", ?_⟩
            simp only [bindInvokeTool, hany, if_false, Bool.false_eq_true, ite_false, ha]
            cases pkvs.lookup "name" <;> rfl
          · exfalso
            apply hany
            rw [List.any_eq_true]
            exact ⟨p, hpmem, by simp [hp1, hp2]⟩
      rcases hbind with ⟨msg, hbind⟩
      exact ⟨msg, by simp [callHandler, asKwargs, hs, hbind]⟩
  rcases hcall with ⟨msg, hcall⟩
  refine ⟨msg, ?_⟩
  simp [readLoop, handleDecoded, reqFields, hm, hp, lookupMethod, hcall]

/-- C10 witness: an `invoke_tool` request whose params name the echo tool
but lack the required `arguments` key. -/
theorem invoke_tool_bad_params_fault_witness :
    ∃ msg, readLoop chatStub initialState [.line (.ok reqEchoMissingArgs)]
      = ⟨[], [], .crashed (.typeError msg), initialState⟩ :=
  invoke_tool_bad_params_fault chatStub initialState
    [("id", .num 2), ("method", .str "invoke_tool"),
     ("params", .obj [("name", .str "echo")])]
    [("name", .str "echo")] [] rfl rfl (Or.inr (Or.inl rfl))
